import Mathlib

/-!
KnobKraft Orm: capability fallbacks, patch selection, paged loading, merging and the
setup panel.

A shallow embedding of

* `src/adaptions/GenericHasBanksCapability.cpp` (namespace `knobkraft`),
* `src/The-Orm/PatchView.cpp` (`PatchView`, `MergeManyPatchFiles`),
* `src/The-Orm/SetupView.cpp` (`SetupView`),

followed by the theorems about them.  C++ exceptions are modelled by `Except`,
side effects (script calls, log lines, MIDI sends) by explicit traces that are threaded
through every operation, object identity (`&patch`, `Synth *`) by addresses.
-/

namespace knobkraft

/-! ## GenericHasBanksCapability.cpp -/

/-- The exceptions the method bodies distinguish in their `catch` clauses:
`py::error_already_set` (an error raised inside the Python script) and every other
`std::exception` (for instance `py::cast_error`).  All exceptions thrown by pybind11
and by the standard library derive from `std::exception`. -/
inductive CppException where
  | errorAlreadySet (what : String)
  | stdException (what : String)
  deriving DecidableEq, Repr

/-- The method-name constants `kNumberOfBanks`, `kNumberOfPatchesPerBank` and
`kFriendlyBankName`.  They are declared in `GenericAdaptation.h`, which is not part of the
sources at hand, so they are kept as identifiers rather than as string values. -/
inductive MethodName where
  | kNumberOfBanks
  | kNumberOfPatchesPerBank
  | kFriendlyBankName
  deriving DecidableEq, Repr

/-- One call made through `callMethod`: the function name and the integer arguments. -/
structure ScriptCall where
  methodName : MethodName
  args : List Int
  deriving DecidableEq, Repr

/-- One line written by `logAdaptationError`. -/
structure AdaptationError where
  adaptation : String
  methodName : MethodName
  what : String
  deriving DecidableEq, Repr

/-- The observable effects of the capability methods: the script calls made, the adaptation
errors logged, and the Python errors handed back to the interpreter by `ex.restore()`. -/
structure PyWorld where
  calls : List ScriptCall
  errorLog : List AdaptationError
  restored : List String
  deriving DecidableEq, Repr

/-- The pybind11 conversions `result.cast<int>()` and `result.cast<std::string>()` on the
objects of type `Obj` a script can return.  A failed conversion throws. -/
structure Pybind (Obj : Type) where
  castInt : Obj → Except CppException Int
  castString : Obj → Except CppException String

/-- The adaptation `me_` as far as the capability uses it: its name, which functions the
Python module defines, and what a call of a function with given arguments results in. -/
structure GenericAdaptation (Obj : Type) where
  getName : String
  pythonModuleHasFunction : MethodName → Bool
  script : MethodName → List Int → Except CppException Obj

/-- Modelled from the spec: `callMethod(name, args...) -> result | raises` of the script
bridge (`GenericAdaptation::callMethod`, defined in `GenericAdaptation.h`).  The call is
recorded and yields the script outcome. -/
def callMethod {Obj : Type} (me : GenericAdaptation Obj) (name : MethodName)
    (args : List Int) (w : PyWorld) : Except CppException Obj × PyWorld :=
  (me.script name args, { w with calls := w.calls ++ [⟨name, args⟩] })

/-- Modelled from the spec: `GenericAdaptation::logAdaptationError(methodName, ex)`, which
logs the failure "with caller+capability identity": one entry naming the adaptation, the
called method and the exception text. -/
def logAdaptationError {Obj : Type} (me : GenericAdaptation Obj) (name : MethodName)
    (what : String) (w : PyWorld) : PyWorld :=
  { w with errorLog := w.errorLog ++ [⟨me.getName, name, what⟩] }

/-- The pybind11 call `ex.restore()`: gives the Python error back to the interpreter.  It
does not rethrow. -/
def restore (what : String) (w : PyWorld) : PyWorld :=
  { w with restored := w.restored ++ [what] }

/-- Modelled from the spec: `MidiBankNumber` (declared in MidiKraft, not part of the sources
at hand), "numeric identifiers with two representations, zero-based (wire format) and
one-based (display)". -/
structure MidiBankNumber where
  bankNo : Int
  deriving DecidableEq, Repr

/-- The zero-based representation. -/
def MidiBankNumber.toZeroBased (b : MidiBankNumber) : Int := b.bankNo

/-- The one-based representation. -/
def MidiBankNumber.toOneBased (b : MidiBankNumber) : Int := b.bankNo + 1

/-- The text of `(boost::format("Bank %d") % n).str()`. -/
def formatBank (n : Int) : String := "Bank " ++ toString n

/-- The body of the `try` block shared by `numberOfBanks` and `numberOfPatches`:
`py::object result = me_->callMethod(name); return result.cast<int>();`. -/
def tryCallInt {Obj : Type} (py : Pybind Obj) (me : GenericAdaptation Obj)
    (name : MethodName) (w : PyWorld) : Except CppException Int × PyWorld :=
  match callMethod me name [] w with
  | (.ok result, w1) => (py.castInt result, w1)
  | (.error ex, w1) => (.error ex, w1)

/-- Function `GenericHasBanksCapability::numberOfBanks`. -/
def numberOfBanks {Obj : Type} (py : Pybind Obj) (me : GenericAdaptation Obj)
    (w : PyWorld) : Except CppException Int × PyWorld :=
  match tryCallInt py me .kNumberOfBanks w with
  | (.ok v, w1) => (.ok v, w1)
  | (.error (.errorAlreadySet what), w1) =>
      -- catch (py::error_already_set& ex), then fall through to `return 1`
      (.ok 1, restore what (logAdaptationError me .kNumberOfBanks what w1))
  | (.error (.stdException what), w1) =>
      -- catch (std::exception& ex), then fall through to `return 1`
      (.ok 1, logAdaptationError me .kNumberOfBanks what w1)

/-- Function `GenericHasBanksCapability::numberOfPatches`. -/
def numberOfPatches {Obj : Type} (py : Pybind Obj) (me : GenericAdaptation Obj)
    (w : PyWorld) : Except CppException Int × PyWorld :=
  match tryCallInt py me .kNumberOfPatchesPerBank w with
  | (.ok v, w1) => (.ok v, w1)
  | (.error (.errorAlreadySet what), w1) =>
      (.ok 0, restore what (logAdaptationError me .kNumberOfPatchesPerBank what w1))
  | (.error (.stdException what), w1) =>
      (.ok 0, logAdaptationError me .kNumberOfPatchesPerBank what w1)

/-- The body of the `try` block of `friendlyBankName`:
`int bankAsInt = bankNo.toZeroBased(); py::object result = me_->callMethod(kFriendlyBankName,
bankAsInt); return result.cast<std::string>();`. -/
def tryCallFriendlyBankName {Obj : Type} (py : Pybind Obj) (me : GenericAdaptation Obj)
    (bankNo : MidiBankNumber) (w : PyWorld) : Except CppException String × PyWorld :=
  let bankAsInt := bankNo.toZeroBased
  match callMethod me .kFriendlyBankName [bankAsInt] w with
  | (.ok result, w1) => (py.castString result, w1)
  | (.error ex, w1) => (.error ex, w1)

/-- Function `GenericHasBanksCapability::friendlyBankName`. -/
def friendlyBankName {Obj : Type} (py : Pybind Obj) (me : GenericAdaptation Obj)
    (bankNo : MidiBankNumber) (w : PyWorld) : Except CppException String × PyWorld :=
  if !me.pythonModuleHasFunction .kFriendlyBankName then
    (.ok (formatBank bankNo.toOneBased), w)
  else
    match tryCallFriendlyBankName py me bankNo w with
    | (.ok s, w1) => (.ok s, w1)
    | (.error (.errorAlreadySet what), w1) =>
        (.ok "invalid name", restore what (logAdaptationError me .kFriendlyBankName what w1))
    | (.error (.stdException what), w1) =>
        (.ok "invalid name", logAdaptationError me .kFriendlyBankName what w1)

/-- The text `ex.what()` of an exception. -/
def CppException.what : CppException → String
  | .errorAlreadySet what => what
  | .stdException what => what

/-- The outcome of calling the script function `name` without arguments and converting its
result to `int`: the integer, or the exception thrown on the way. -/
def scriptIntResult {Obj : Type} (py : Pybind Obj) (me : GenericAdaptation Obj)
    (name : MethodName) : Except CppException Int :=
  match me.script name [] with
  | .ok obj => py.castInt obj
  | .error ex => .error ex

/-- The outcome of calling the script function `kFriendlyBankName` with the zero-based bank
number and converting its result to a string. -/
def scriptStringResult {Obj : Type} (py : Pybind Obj) (me : GenericAdaptation Obj)
    (bankNo : MidiBankNumber) : Except CppException String :=
  match me.script .kFriendlyBankName [bankNo.toZeroBased] with
  | .ok obj => py.castString obj
  | .error ex => .error ex

/-- The adaptation errors a capability method has to log for a given outcome of its script
call: none on success, one entry naming the method on failure. -/
def expectedErrors {Obj α : Type} (me : GenericAdaptation Obj) (name : MethodName)
    (outcome : Except CppException α) : List AdaptationError :=
  match outcome with
  | .ok _ => []
  | .error ex => [⟨me.getName, name, ex.what⟩]

/-! ### Concrete adaptations used to evaluate the model -/

/-- A small stand-in for the Python objects a script may return. -/
inductive PyObject where
  | none
  | int (v : Int)
  | str (s : String)
  deriving DecidableEq, Repr

/-- Conversions on `PyObject`: integers convert to `int`, strings to `std::string`, anything
else throws `py::cast_error`. -/
def pyObjectCasts : Pybind PyObject where
  castInt := fun o =>
    match o with
    | .int v => .ok v
    | _ => .error (.stdException "Unable to cast Python instance to C++ type")
  castString := fun o =>
    match o with
    | .str s => .ok s
    | _ => .error (.stdException "Unable to cast Python instance to C++ type")

/-- An adaptation that defines every function, each of which raises a Python error. -/
def raisingAdaptation : GenericAdaptation PyObject where
  getName := "Broken"
  pythonModuleHasFunction := fun _ => true
  script := fun _ _ => .error (.errorAlreadySet "NameError")

/-- An adaptation that defines every function, each of which returns `None`. -/
def noneAdaptation : GenericAdaptation PyObject where
  getName := "ReturnsNone"
  pythonModuleHasFunction := fun _ => true
  script := fun _ _ => .ok .none

/-- An adaptation with 4 banks of 128 patches and no friendly bank names. -/
def plainAdaptation : GenericAdaptation PyObject where
  getName := "Plain"
  pythonModuleHasFunction := fun m =>
    match m with
    | .kFriendlyBankName => false
    | _ => true
  script := fun m _ =>
    match m with
    | .kNumberOfBanks => .ok (.int 4)
    | .kNumberOfPatchesPerBank => .ok (.int 128)
    | .kFriendlyBankName => .error (.errorAlreadySet "AttributeError")

/-- An adaptation with 2 banks of 64 patches whose banks are named by the script. -/
def namedAdaptation : GenericAdaptation PyObject where
  getName := "Named"
  pythonModuleHasFunction := fun _ => true
  script := fun m args =>
    match m with
    | .kNumberOfBanks => .ok (.int 2)
    | .kNumberOfPatchesPerBank => .ok (.int 64)
    | .kFriendlyBankName => .ok (.str ("User " ++ toString (args.headD 0)))

/-- The world before any call. -/
def emptyWorld : PyWorld := ⟨[], [], []⟩

end knobkraft

namespace TheOrm

/-! ## PatchView.cpp -/

namespace midikraft

/-- A patch as far as `PatchView` reads it: its name and, when the patch is a
`LayeredPatch` (the `dynamic_pointer_cast` succeeds), its `numberOfLayers()`. -/
structure Patch where
  patchName : String
  numberOfLayers : Option Int
  deriving DecidableEq, Repr

/-- Modelled from the spec: `SourceInfo` (declared in MidiKraft, not part of the sources at
hand), the provenance record of an import with its "human label derived from its origin":
`toDisplayString(synth)` gives the label for a synth. -/
structure SourceInfo where
  toDisplayString : Option Nat → String

/-- A `PatchHolder` object: its address (what `&patch` compares), the patch it holds and its
`sourceInfo()` (a shared pointer, `none` when null). -/
structure PatchHolder where
  addr : Nat
  patch : Patch
  sourceInfo : Option SourceInfo

/-- A `Synth` object: its address and whether it implements `LayerCapability` (the
`dynamic_cast` succeeds). -/
structure Synth where
  addr : Nat
  layerCapability : Bool
  deriving DecidableEq, Repr

/-- The filter handed to the database: the synth, the import to restrict to (empty for all
imports) and the favourites flag. -/
structure PatchFilter where
  synth : Option Nat
  importID : String
  onlyFaves : Bool
  deriving DecidableEq, Repr

/-- The database as far as the view uses it: `mergePatchesIntoDatabase` yields the number of
new or changed patches and fills `outNewPatches`; `getImportsList` yields the imports of a
synth as pairs of display name and id, as the database answers when the success handler of a
merge asks for them. -/
structure PatchDatabase where
  mergePatchesIntoDatabase : Option Nat → List PatchHolder → Int × List PatchHolder
  getImportsList : Option Nat → List (String × String)

end midikraft

open midikraft

/-- What the view does to its collaborators, in the order it happens.  The event `callAsync`
is a call of `MessageManager::callAsync`: with `some i` the posted function selects item `i`
of the import box, with `none` it is the empty function. -/
inductive Event where
  | postMessage (text : String)
  | sendPatchToSynth (synth : Nat) (patch : Patch)
  | switchToLayer (synth : Nat) (layer : Int)
  | mergePatchesIntoDatabase (synth : Option Nat) (patchesLoaded : List PatchHolder)
  | finished (outNewPatches : List PatchHolder)
  | callback (newPatches : List PatchHolder)
  | callAsync (selectItem : Option Nat)

/-- The state `PatchView` works on: the globals `UIModel::currentSynth()` and
`UIModel::currentPatch()` (pointers, `none` for `nullptr`), the members `compareTarget_`,
`currentLayer_`, `imports_`, the import combo box `importList_` (its items, the index of the
selected item and its text) and the favourites button, and the trace of effects so far. -/
structure PatchView where
  currentSynth : Option Nat
  currentPatch : Option Nat
  compareTarget : Option Nat
  currentLayer : Int
  importListItems : List String
  importListSelectedItemIndex : Int
  importListText : String
  imports : List (String × String)
  onlyFavesToggleState : Bool
  trace : List Event

/-- The C++ operator `%` on `int`: the remainder of the division truncated towards zero,
undefined (`none`) for a zero divisor. -/
def cppRem (a b : Int) : Option Int :=
  if b = 0 then none else some (Int.tmod a b)

/-- The text of `(boost::format(fmt) % n).str()` for a format `before %d after`. -/
def formatInt (before : String) (n : Int) (after : String) : String :=
  before ++ toString n ++ after

namespace PatchView

/-- Append effects to the trace. -/
def emit (s : PatchView) (es : List Event) : PatchView :=
  { s with trace := s.trace ++ es }

/-- Function `PatchView::selectPatch`.  The result is `none` when the layer advance divides by
zero.  The sum `currentLayer_ + 1` is taken exactly; no `int` overflow is modelled. -/
def selectPatch (synth : Synth) (patch : PatchHolder) (s : PatchView) : Option PatchView :=
  let branch : Option PatchView :=
    if some patch.addr ≠ s.currentPatch then
      some { s with
        compareTarget := s.currentPatch
        currentPatch := some patch.addr
        currentLayer := 0
        trace := s.trace ++ [.postMessage ("Selected patch " ++ patch.patch.patchName),
          .sendPatchToSynth synth.addr patch.patch] }
    else
      match patch.patch.numberOfLayers with
      | some n => (cppRem (s.currentLayer + 1) n).map fun l => { s with currentLayer := l }
      | none => some s
  branch.map fun s1 =>
    if synth.layerCapability then
      s1.emit [.postMessage (formatInt "Switching to layer " s1.currentLayer ""),
        .switchToLayer synth.addr s1.currentLayer]
    else s1

/-- Calling `selectPatch` with the same synth and patch `k` times in a row. -/
def selectPatchTimes (synth : Synth) (patch : PatchHolder) : Nat → PatchView → Option PatchView
  | 0, s => some s
  | k + 1, s => (selectPatch synth patch s).bind (selectPatchTimes synth patch k)

/-- The lookup `imports_[key]` of `std::map`: the stored value, or an empty string that is
inserted under the key when there is none. -/
def importsAt (s : PatchView) (key : String) : String × PatchView :=
  match s.imports.lookup key with
  | some v => (v, s)
  | none => ("", { s with imports := s.imports ++ [(key, "")] })

/-- Function `PatchView::currentlySelectedSourceUUID`. -/
def currentlySelectedSourceUUID (s : PatchView) : String × PatchView :=
  if s.importListSelectedItemIndex ≠ -1 then importsAt s s.importListText
  else ("", s)

/-- A call of `database_.getPatchesAsync(filter, finished, skip, limit)`: the arguments, with
the lambda `finished` as the state transformer it is when the database delivers
`newPatches` to it. -/
structure AsyncQuery where
  filter : PatchFilter
  finished : List PatchHolder → PatchView → PatchView
  skip : Int
  limit : Int

/-- Function `PatchView::loadPage`: the query it issues and the state after issuing it.  The callback
is the caller's; its invocation is the event `callback`. -/
def loadPage (skip limit : Int) (s : PatchView) : AsyncQuery × PatchView :=
  let loadingForWhich := s.currentSynth
  let (uuid, s1) := currentlySelectedSourceUUID s
  ({ filter := ⟨loadingForWhich, uuid, s1.onlyFavesToggleState⟩
     finished := fun newPatches now =>
       if now.currentSynth = loadingForWhich then now.emit [.callback newPatches] else now
     skip := skip
     limit := limit }, s1)

end PatchView

namespace MergeManyPatchFiles

/-- Function `MergeManyPatchFiles::run`.  The success handler `finished_` is the caller's; its
invocation is the event `finished`. -/
def run (database : PatchDatabase) (patchesLoaded : List PatchHolder) (s : PatchView) :
    PatchView :=
  if patchesLoaded.length = 0 then
    s.emit [.postMessage "No patches contained in data, nothing to upload."]
  else
    let (numberNew, outNewPatches) :=
      database.mergePatchesIntoDatabase s.currentSynth patchesLoaded
    let s1 := s.emit [.mergePatchesIntoDatabase s.currentSynth patchesLoaded]
    if numberNew > 0 then
      s1.emit [.postMessage (formatInt "Retrieved " numberNew
          " new or changed patches from the synth, uploaded to database"),
        .finished outNewPatches]
    else
      s1.emit [.postMessage "All patches already known to database"]

end MergeManyPatchFiles

namespace PatchView

/-- The constant `kAllPatchesFilter`. -/
def kAllPatchesFilter : String := "All patches"

/-- The assignment `imports_[key] = value` of `std::map`: the entry of the key is replaced,
or added when there is none. -/
def importsAssign (imports : List (String × String)) (key value : String) :
    List (String × String) :=
  if imports.any (fun e => e.1 == key) then
    imports.map fun e => if e.1 == key then (key, value) else e
  else imports ++ [(key, value)]

/-- Function `PatchView::rebuildImportFilterBox`.  `imports_` is cleared and refilled from the
database.  `importList_.clear()` removes the items of the combo box and, the box not being
editable, deselects (index -1, empty text); `addItemList` then adds the all-patches entry and
the names of the imports in the order of the database. -/
def rebuildImportFilterBox (database : PatchDatabase) (s : PatchView) : PatchView :=
  let sources := database.getImportsList s.currentSynth
  let sourceNameList := kAllPatchesFilter :: sources.map fun source => source.1
  { s with
    imports := sources.foldl (fun imports source => importsAssign imports source.1 source.2) []
    importListItems := sourceNameList
    importListSelectedItemIndex := -1
    importListText := "" }

/-- The loop of the success handler over the items `i, i + 1, ...` of the import box: for
every item whose text is the display string, the selection of that item is posted with
`MessageManager::callAsync`. -/
def postSelections (display : String) : List String → Nat → List Event
  | [], _ => []
  | item :: items, i =>
    if item = display then .callAsync (some i) :: postSelections display items (i + 1)
    else postSelections display items (i + 1)

/-- The success handler that `PatchView::mergeNewPatches` installs (the lambda at lines
271-287).  The result is `none` when `outNewPatches[0]` reads an empty vector. -/
def mergeNewPatchesHandler (database : PatchDatabase) (outNewPatches : List PatchHolder)
    (s : PatchView) : Option PatchView :=
  let s1 := rebuildImportFilterBox database s
  match outNewPatches with
  | [] => none
  | first :: _ =>
    let s2 :=
      match first.sourceInfo with
      | some info =>
        s1.emit (postSelections (info.toDisplayString s1.currentSynth) s1.importListItems 0)
      | none => s1
    some (s2.emit [.callAsync none])

end PatchView

namespace MergeManyPatchFiles

/-- Function `MergeManyPatchFiles::run` with the success handler `finished_` given as the state
transformer it is: where `run` invokes `finished_(outNewPatches)`, the handler runs. -/
def runWith (finished_ : List PatchHolder → PatchView → Option PatchView)
    (database : PatchDatabase) (patchesLoaded : List PatchHolder) (s : PatchView) :
    Option PatchView :=
  if patchesLoaded.length = 0 then
    some (s.emit [.postMessage "No patches contained in data, nothing to upload."])
  else
    let (numberNew, outNewPatches) :=
      database.mergePatchesIntoDatabase s.currentSynth patchesLoaded
    let s1 := s.emit [.mergePatchesIntoDatabase s.currentSynth patchesLoaded]
    if numberNew > 0 then
      finished_ outNewPatches
        (s1.emit [.postMessage (formatInt "Retrieved " numberNew
            " new or changed patches from the synth, uploaded to database"),
          .finished outNewPatches])
    else
      some (s1.emit [.postMessage "All patches already known to database"])

end MergeManyPatchFiles

namespace PatchView

/-- Function `PatchView::mergeNewPatches`: builds the merge task on `database_` with its
success handler and runs it with `runThread()`, which returns when `run` has finished. -/
def mergeNewPatches (database : PatchDatabase) (patchesLoaded : List PatchHolder)
    (s : PatchView) : Option PatchView :=
  MergeManyPatchFiles.runWith (mergeNewPatchesHandler database) database patchesLoaded s

/-- Function `PatchView::loadPatches`.  `loadSysexPatchesFromDisk` is the librarian reading the files
the user picks for the given synth. -/
def loadPatches (loadSysexPatchesFromDisk : Nat → List PatchHolder)
    (database : PatchDatabase) (s : PatchView) : Option PatchView :=
  match s.currentSynth with
  | some synth =>
    let patches := loadSysexPatchesFromDisk synth
    if patches.length > 0 then mergeNewPatches database patches s else some s
  | none => some s

end PatchView

/-- Number of calls of the store merge in a trace. -/
def mergeCalls : List Event → Nat
  | [] => 0
  | .mergePatchesIntoDatabase _ _ :: es => mergeCalls es + 1
  | _ :: es => mergeCalls es

/-- The arguments of the success-handler invocations in a trace, in order. -/
def finishedCalls : List Event → List (List PatchHolder)
  | [] => []
  | .finished out :: es => out :: finishedCalls es
  | _ :: es => finishedCalls es

/-- The arguments of the page-callback invocations in a trace, in order. -/
def callbackCalls : List Event → List (List PatchHolder)
  | [] => []
  | .callback ps :: es => ps :: callbackCalls es
  | _ :: es => callbackCalls es

/-- The patches sent to a synth in a trace, in order, each with the address of the synth. -/
def sentPatches : List Event → List (Nat × Patch)
  | [] => []
  | .sendPatchToSynth synth patch :: es => (synth, patch) :: sentPatches es
  | _ :: es => sentPatches es

/-- A layered patch with two layers, held at address 100. -/
def twoLayerPatch : PatchHolder := ⟨100, ⟨"Split Pad", some 2⟩, none⟩

/-- A layered patch with three layers, held at address 101. -/
def threeLayerPatch : PatchHolder := ⟨101, ⟨"Trio", some 3⟩, none⟩

/-- A single patch without layers, held at address 102. -/
def singlePatch : PatchHolder := ⟨102, ⟨"Brass", none⟩, none⟩

/-- A synth with `LayerCapability`, at address 2. -/
def layerSynth : Synth := ⟨2, true⟩

/-- A view showing the patch at address `patch` on layer `layer` of the synth at address 2,
no import selected, nothing traced yet. -/
def viewOn (patch : Nat) (layer : Int) : PatchView where
  currentSynth := some 2
  currentPatch := some patch
  compareTarget := none
  currentLayer := layer
  importListItems := []
  importListSelectedItemIndex := -1
  importListText := ""
  imports := []
  onlyFavesToggleState := false
  trace := []

/-- A layered patch that reports zero layers, held at address 103. -/
def zeroLayerPatch : PatchHolder := ⟨103, ⟨"Hollow", some 0⟩, none⟩

/-- A store that takes every patch of the batch as new. -/
def acceptingDatabase : PatchDatabase := ⟨fun _ ps => (ps.length, ps), fun _ => []⟩

/-- A store that already knows every patch. -/
def saturatedDatabase : PatchDatabase := ⟨fun _ _ => (0, []), fun _ => []⟩

/-! ## SetupView.cpp -/

namespace midikraft

/-- Modelled from the spec: `MidiChannel` (declared in MidiKraft, not part of the sources at
hand), the "channel configuration" of a synth: whether it is valid, whether it is omni, and
its zero-based number. -/
structure MidiChannel where
  isValid : Bool
  isOmni : Bool
  zeroBased : Int
  deriving DecidableEq, Repr

/-- The one-based channel number. -/
def MidiChannel.toOneBasedInt (c : MidiChannel) : Int := c.zeroBased + 1

/-- The state of a device as far as `SetupView` reads it: the names of its MIDI output and
input and its channel. -/
structure SimpleDiscoverableDevice where
  midiOutput : String
  midiInput : String
  channel : MidiChannel
  deriving DecidableEq, Repr

/-- A `SynthHolder`: the name of the synth and the shared pointer to its device (an address,
`none` for a null pointer). -/
structure SynthHolder where
  getName : String
  device : Option Nat
  deriving DecidableEq, Repr

end midikraft

/-- Modelled from the spec: the synth list `UIModel::instance()->synthList_` (declared in
`UIModel.h`, not part of the sources at hand): the synths in the order they were
registered, the state of the device at each address, and the "active flag" of each
device. -/
structure SynthList where
  synths : List SynthHolder
  deviceAt : Nat → SimpleDiscoverableDevice
  active : Nat → Bool

namespace SynthList

/-- All synths, in registration order. -/
def allSynths (l : SynthList) : List SynthHolder := l.synths

/-- The first synth with the given name, a holder of a null pointer when there is none. -/
def synthByName (l : SynthList) (name : String) : SynthHolder :=
  (l.synths.find? fun h => h.getName == name).getD ⟨name, none⟩

/-- The active flag of a device; a null pointer is not active. -/
def isSynthActive (l : SynthList) (device : Option Nat) : Bool :=
  match device with
  | none => false
  | some a => l.active a

end SynthList

/-- Which class a property object is an instance of. -/
inductive EditorKind where
  | typedNamedValue
  | midiDevicePropertyEditor (inputInsteadOfOutput : Bool)
  | midiChannelPropertyEditor
  deriving DecidableEq, Repr

/-- A property of the setup panels: its name, the section it is shown under, its class and
its value.  The value is `none` as long as only the constructor of the property, which is
not part of the sources at hand, has set it. -/
structure TypedNamedValue where
  name : String
  sectionName : String
  editor : EditorKind
  value : Option Int
  deriving DecidableEq, Repr

/-- The collaborators of `SetupView` that are not part of the sources at hand:
`indexOfValue` of a property (the position of a MIDI device name in the list of the
property) and `AutoDetection::loadSettings`, which overwrites the state of a device with
the persisted settings. -/
structure SetupCollaborators where
  indexOfValue : TypedNamedValue → String → Int
  loadSettings : SimpleDiscoverableDevice → SimpleDiscoverableDevice

/-- The comparison `a < b` of `std::string`: lexicographic on the character codes. -/
def charsLess : List Char → List Char → Bool
  | _, [] => false
  | [], _ :: _ => true
  | a :: as, b :: bs =>
    if a.toNat < b.toNat then true
    else if b.toNat < a.toNat then false
    else charsLess as bs

/-- Insert a name into a sorted list of names, after the names smaller than it. -/
def insertName (x : String) : List String → List String
  | [] => [x]
  | y :: ys => if charsLess y.toList x.toList then y :: insertName x ys else x :: y :: ys

/-- The effect of `std::sort(sortedList.begin(), sortedList.end())`: the names in ascending
order. -/
def sortNames : List String → List String
  | [] => []
  | x :: xs => insertName x (sortNames xs)

/-- The members `sortedSynthList_`, `synths_` and `properties_` of `SetupView`. -/
structure SetupView where
  sortedSynthList : List SynthHolder
  synths : List TypedNamedValue
  properties : List TypedNamedValue
  deriving DecidableEq, Repr

namespace SetupView

/-- Function `SetupView::setValueWithoutListeners` applied to `props[i]->value()`: `none`
when `i` is not an index of the vector. -/
def setValueWithoutListeners (props : List TypedNamedValue) (i : Nat) (newValue : Int) :
    Option (List TypedNamedValue) :=
  match props[i]? with
  | none => none
  | some p => some (props.set i { p with value := some newValue })

/-- The value `refreshData` writes for a channel. -/
def channelValue (channel : MidiChannel) : Int :=
  if !channel.isValid then 18
  else if channel.isOmni then 17
  else channel.toOneBasedInt

/-- The loop of `SetupView::refreshData` over the synths that are left, with the running
index `prop`.  The result is `none` when the loop indexes `properties_` out of bounds. -/
def refreshDataLoop (c : SetupCollaborators) :
    List SynthHolder → Nat → SynthList → List TypedNamedValue →
      Option (List TypedNamedValue × SynthList)
  | [], _, list, props => some (props, list)
  | synth :: rest, prop, list, props =>
    match synth.device with
    | none => refreshDataLoop c rest prop list props
    | some a =>
      if !list.isSynthActive synth.device then refreshDataLoop c rest prop list props
      else
        -- midikraft::AutoDetection::loadSettings(synth.device().get())
        let list1 : SynthList :=
          { list with deviceAt := Function.update list.deviceAt a (c.loadSettings (list.deviceAt a)) }
        let device := list1.deviceAt a
        match props[prop]? with
        | none => none
        | some p0 =>
          (setValueWithoutListeners props prop (c.indexOfValue p0 device.midiOutput)).bind
            fun props1 =>
          match props1[prop + 1]? with
          | none => none
          | some p1 =>
            (setValueWithoutListeners props1 (prop + 1)
              (c.indexOfValue p1 device.midiInput)).bind fun props2 =>
            (setValueWithoutListeners props2 (prop + 2) (channelValue device.channel)).bind
              fun props3 => refreshDataLoop c rest (prop + 3) list1 props3

/-- Function `SetupView::refreshData`: walks `allSynths()` of the synth list. -/
def refreshData (c : SetupCollaborators) (list : SynthList) (v : SetupView) :
    Option (SetupView × SynthList) :=
  (refreshDataLoop c list.allSynths 0 list v.properties).map
    fun r => ({ v with properties := r.1 }, r.2)

/-- The rebuild loop of `SetupView::rebuildSetupColumn`: three properties for every active
synth of `sortedSynthList_`. -/
def setupColumn (list : SynthList) : List SynthHolder → List TypedNamedValue
  | [] => []
  | synth :: rest =>
    if !list.isSynthActive synth.device then setupColumn list rest
    else
      let sectionName := synth.getName
      ⟨"Sent to device", sectionName, .midiDevicePropertyEditor false, none⟩ ::
      ⟨"Receive from device", sectionName, .midiDevicePropertyEditor true, none⟩ ::
      ⟨"MIDI channel", sectionName, .midiChannelPropertyEditor, none⟩ ::
      setupColumn list rest

/-- Function `SetupView::rebuildSetupColumn`. -/
def rebuildSetupColumn (c : SetupCollaborators) (list : SynthList) (v : SetupView) :
    Option (SetupView × SynthList) :=
  refreshData c list { v with properties := setupColumn list v.sortedSynthList }

/-- The loop of `SetupView::refreshSynthActiveness` with the running index `synthCount`. -/
def refreshSynthActivenessLoop (list : SynthList) :
    List SynthHolder → Nat → List TypedNamedValue → Option (List TypedNamedValue)
  | [], _, props => some props
  | synth :: rest, synthCount, props =>
    (setValueWithoutListeners props synthCount
      (if list.isSynthActive synth.device then 1 else 0)).bind
      fun props1 => refreshSynthActivenessLoop list rest (synthCount + 1) props1

/-- Function `SetupView::refreshSynthActiveness`. -/
def refreshSynthActiveness (list : SynthList) (v : SetupView) : Option SetupView :=
  (refreshSynthActivenessLoop list v.sortedSynthList 0 v.synths).map
    fun props => { v with synths := props }

/-- The constructor `SetupView::SetupView` up to the call of `refreshSynthActiveness`. -/
def construct (c : SetupCollaborators) (list : SynthList) : Option (SetupView × SynthList) :=
  let sortedList := sortNames
    ((list.allSynths.filter fun synth => synth.device.isSome).map fun synth => synth.getName)
  let sortedSynthList := sortedList.map list.synthByName
  let synths : List TypedNamedValue := sortedSynthList.map fun synth =>
    ⟨synth.getName, "Activate support for synth", .typedNamedValue, some 1⟩
  (rebuildSetupColumn c list ⟨sortedSynthList, synths, []⟩).bind fun r =>
    (refreshSynthActiveness r.2 r.1).map fun v => (v, r.2)

end SetupView

/-! ### A concrete setup used to evaluate the model -/

/-- Two synths with devices at addresses 1 and 2, registered as Korg before Access. -/
def exampleSynths : List SynthHolder := [⟨"Korg DW8000", some 1⟩, ⟨"Access Virus", some 2⟩]

/-- The Korg listens on channel 1 of the ports B, the Access on channel 5 of the ports A;
both are active. -/
def exampleSynthList : SynthList where
  synths := exampleSynths
  deviceAt := fun a =>
    if a = 1 then ⟨"Out B", "In B", ⟨true, false, 0⟩⟩ else ⟨"Out A", "In A", ⟨true, false, 4⟩⟩
  active := fun _ => true

/-- Settings that are already loaded, and ports numbered 1 for A and 2 for B. -/
def exampleCollaborators : SetupCollaborators where
  indexOfValue := fun _ port => if port = "Out A" ∨ port = "In A" then 1 else 2
  loadSettings := fun d => d

/-- The section names and values of a list of properties. -/
def sectionValues (props : List TypedNamedValue) : List (String × String × Option Int) :=
  props.map fun p => (p.sectionName, p.name, p.value)

end TheOrm

/-! ## Theorems: GenericHasBanksCapability -/

namespace knobkraft

/-- The three method bodies in closed form: the value is the script result or the given
default, the call is recorded, and a failure is logged (and restored when it is a Python
error). -/
theorem numberOfBanks_eq {Obj : Type} (py : Pybind Obj) (me : GenericAdaptation Obj)
    (w : PyWorld) :
    numberOfBanks py me w =
      match scriptIntResult py me .kNumberOfBanks with
      | .ok v => (.ok v, { w with calls := w.calls ++ [⟨.kNumberOfBanks, []⟩] })
      | .error (.errorAlreadySet what) =>
          (.ok 1, { calls := w.calls ++ [⟨.kNumberOfBanks, []⟩]
                    errorLog := w.errorLog ++ [⟨me.getName, .kNumberOfBanks, what⟩]
                    restored := w.restored ++ [what] })
      | .error (.stdException what) =>
          (.ok 1, { calls := w.calls ++ [⟨.kNumberOfBanks, []⟩]
                    errorLog := w.errorLog ++ [⟨me.getName, .kNumberOfBanks, what⟩]
                    restored := w.restored }) := by
  unfold numberOfBanks tryCallInt callMethod scriptIntResult
  cases hs : me.script .kNumberOfBanks [] with
  | error ex => cases ex <;> rfl
  | ok obj =>
    cases hc : py.castInt obj with
    | error ex => cases ex <;> simp [hc, logAdaptationError, restore]
    | ok v => simp [hc]

/-- Closed form of `numberOfPatches`, as for `numberOfBanks` with default 0. -/
theorem numberOfPatches_eq {Obj : Type} (py : Pybind Obj) (me : GenericAdaptation Obj)
    (w : PyWorld) :
    numberOfPatches py me w =
      match scriptIntResult py me .kNumberOfPatchesPerBank with
      | .ok v => (.ok v, { w with calls := w.calls ++ [⟨.kNumberOfPatchesPerBank, []⟩] })
      | .error (.errorAlreadySet what) =>
          (.ok 0, { calls := w.calls ++ [⟨.kNumberOfPatchesPerBank, []⟩]
                    errorLog := w.errorLog ++ [⟨me.getName, .kNumberOfPatchesPerBank, what⟩]
                    restored := w.restored ++ [what] })
      | .error (.stdException what) =>
          (.ok 0, { calls := w.calls ++ [⟨.kNumberOfPatchesPerBank, []⟩]
                    errorLog := w.errorLog ++ [⟨me.getName, .kNumberOfPatchesPerBank, what⟩]
                    restored := w.restored }) := by
  unfold numberOfPatches tryCallInt callMethod scriptIntResult
  cases hs : me.script .kNumberOfPatchesPerBank [] with
  | error ex => cases ex <;> rfl
  | ok obj =>
    cases hc : py.castInt obj with
    | error ex => cases ex <;> simp [hc, logAdaptationError, restore]
    | ok v => simp [hc]

/-- Closed form of `friendlyBankName` when the adaptation defines the function. -/
theorem friendlyBankName_eq_of_defined {Obj : Type} (py : Pybind Obj)
    (me : GenericAdaptation Obj) (bankNo : MidiBankNumber) (w : PyWorld)
    (hdef : me.pythonModuleHasFunction .kFriendlyBankName = true) :
    friendlyBankName py me bankNo w =
      match scriptStringResult py me bankNo with
      | .ok v =>
          (.ok v, { w with calls := w.calls ++ [⟨.kFriendlyBankName, [bankNo.toZeroBased]⟩] })
      | .error (.errorAlreadySet what) =>
          (.ok "invalid name",
            { calls := w.calls ++ [⟨.kFriendlyBankName, [bankNo.toZeroBased]⟩]
              errorLog := w.errorLog ++ [⟨me.getName, .kFriendlyBankName, what⟩]
              restored := w.restored ++ [what] })
      | .error (.stdException what) =>
          (.ok "invalid name",
            { calls := w.calls ++ [⟨.kFriendlyBankName, [bankNo.toZeroBased]⟩]
              errorLog := w.errorLog ++ [⟨me.getName, .kFriendlyBankName, what⟩]
              restored := w.restored }) := by
  unfold friendlyBankName tryCallFriendlyBankName callMethod scriptStringResult
  simp only [hdef, Bool.not_true, Bool.false_eq_true, if_false]
  cases hs : me.script .kFriendlyBankName [bankNo.toZeroBased] with
  | error ex => cases ex <;> rfl
  | ok obj =>
    cases hc : py.castString obj with
    | error ex => cases ex <;> simp [hc, logAdaptationError, restore]
    | ok v => simp [hc]

/-- Closed form of `friendlyBankName` when the adaptation does not define the function. -/
theorem friendlyBankName_eq_of_undefined {Obj : Type} (py : Pybind Obj)
    (me : GenericAdaptation Obj) (bankNo : MidiBankNumber) (w : PyWorld)
    (hdef : me.pythonModuleHasFunction .kFriendlyBankName = false) :
    friendlyBankName py me bankNo w = (.ok (formatBank bankNo.toOneBased), w) := by
  unfold friendlyBankName
  simp [hdef]

/-- C1, as stated, fails.  The adaptation `raisingAdaptation` defines the friendly-bank-name
function and the call raises a Python error; for the bank with zero-based number 0
`friendlyBankName` returns "invalid name", which is neither "Bank 1" (one-based) nor
"Bank 0" (zero-based). -/
theorem friendlyBankName_failure_not_default :
    raisingAdaptation.pythonModuleHasFunction .kFriendlyBankName = true ∧
    scriptStringResult pyObjectCasts raisingAdaptation ⟨0⟩ = .error (.errorAlreadySet "NameError") ∧
    (friendlyBankName pyObjectCasts raisingAdaptation ⟨0⟩ emptyWorld).1 = .ok "invalid name" ∧
    (friendlyBankName pyObjectCasts raisingAdaptation ⟨0⟩ emptyWorld).1 ≠
      .ok (formatBank (MidiBankNumber.toOneBased ⟨0⟩)) ∧
    (friendlyBankName pyObjectCasts raisingAdaptation ⟨0⟩ emptyWorld).1 ≠
      .ok (formatBank (MidiBankNumber.toZeroBased ⟨0⟩)) := by
  refine ⟨rfl, rfl, rfl, ?_, ?_⟩
  · intro h
    exact absurd (Except.ok.inj h) (by decide)
  · intro h
    exact absurd (Except.ok.inj h) (by decide)

/-- C1, amended.  For every bank number, when the adaptation defines the friendly-bank-name
function but calling it fails (the script call throws, or its result cannot be converted to
a string), `friendlyBankName` returns the fixed string "invalid name". -/
theorem friendlyBankName_failure_invalid_name {Obj : Type} (py : Pybind Obj)
    (me : GenericAdaptation Obj) (bankNo : MidiBankNumber) (w : PyWorld) (ex : CppException)
    (hdef : me.pythonModuleHasFunction .kFriendlyBankName = true)
    (hfail : scriptStringResult py me bankNo = .error ex) :
    (friendlyBankName py me bankNo w).1 = .ok "invalid name" := by
  rw [friendlyBankName_eq_of_defined py me bankNo w hdef, hfail]
  cases ex <;> rfl

/-- Witness for C1 amended: a script that returns `None`, which does not convert to a
string, for bank 5. -/
theorem friendlyBankName_failure_invalid_name_witness :
    noneAdaptation.pythonModuleHasFunction .kFriendlyBankName = true ∧
    scriptStringResult pyObjectCasts noneAdaptation ⟨5⟩ =
      .error (.stdException "Unable to cast Python instance to C++ type") ∧
    (friendlyBankName pyObjectCasts noneAdaptation ⟨5⟩ emptyWorld).1 = .ok "invalid name" :=
  ⟨rfl, rfl,
    friendlyBankName_failure_invalid_name pyObjectCasts noneAdaptation ⟨5⟩ emptyWorld _ rfl rfl⟩

/-- C2.  `numberOfBanks` returns 1 whenever the script call fails, whatever the failure (the
call throws a Python error or another exception, or the result does not convert to an
integer), and returns the integer result of the script otherwise. -/
theorem numberOfBanks_result {Obj : Type} (py : Pybind Obj) (me : GenericAdaptation Obj)
    (w : PyWorld) :
    (numberOfBanks py me w).1 =
      match scriptIntResult py me .kNumberOfBanks with
      | .ok v => .ok v
      | .error _ => .ok 1 := by
  rw [numberOfBanks_eq]
  cases scriptIntResult py me .kNumberOfBanks with
  | ok v => rfl
  | error ex => cases ex <;> rfl

/-- C3.  `numberOfPatches` returns 0 whenever the script call fails, whatever the failure,
and returns the integer result of the script otherwise. -/
theorem numberOfPatches_result {Obj : Type} (py : Pybind Obj) (me : GenericAdaptation Obj)
    (w : PyWorld) :
    (numberOfPatches py me w).1 =
      match scriptIntResult py me .kNumberOfPatchesPerBank with
      | .ok v => .ok v
      | .error _ => .ok 0 := by
  rw [numberOfPatches_eq]
  cases scriptIntResult py me .kNumberOfPatchesPerBank with
  | ok v => rfl
  | error ex => cases ex <;> rfl

/-- C4.  When the adaptation does not define the friendly-bank-name function,
`friendlyBankName` returns "Bank " followed by the decimal one-based bank number (the
zero-based number plus one) and leaves the world, in particular the list of script calls,
as it was. -/
theorem friendlyBankName_unsupported {Obj : Type} (py : Pybind Obj)
    (me : GenericAdaptation Obj) (bankNo : MidiBankNumber) (w : PyWorld)
    (hdef : me.pythonModuleHasFunction .kFriendlyBankName = false) :
    friendlyBankName py me bankNo w =
      (.ok ("Bank " ++ toString (bankNo.toZeroBased + 1)), w) ∧
    (friendlyBankName py me bankNo w).2.calls = w.calls := by
  rw [friendlyBankName_eq_of_undefined py me bankNo w hdef]
  exact ⟨rfl, rfl⟩

/-- Witness for C4: bank 2 (zero-based) of an adaptation without friendly bank names is
"Bank 3". -/
theorem friendlyBankName_unsupported_witness :
    plainAdaptation.pythonModuleHasFunction .kFriendlyBankName = false ∧
    friendlyBankName pyObjectCasts plainAdaptation ⟨2⟩ emptyWorld =
      (.ok "Bank 3", emptyWorld) ∧
    (friendlyBankName pyObjectCasts plainAdaptation ⟨2⟩ emptyWorld).2.calls = [] :=
  ⟨rfl, friendlyBankName_unsupported pyObjectCasts plainAdaptation ⟨2⟩ emptyWorld rfl⟩

/-- C10.  Each of `numberOfBanks`, `numberOfPatches` and `friendlyBankName` returns a value
for every outcome of the script call (no exception leaves the method), logs exactly one
adaptation error naming the called method when the call failed and none when it
succeeded; `friendlyBankName` logs none either when it makes no call. -/
theorem hasBanks_never_throws_logs_once {Obj : Type} (py : Pybind Obj)
    (me : GenericAdaptation Obj) (bankNo : MidiBankNumber) (w : PyWorld) :
    ((∃ v, (numberOfBanks py me w).1 = .ok v) ∧
      (numberOfBanks py me w).2.errorLog =
        w.errorLog ++ expectedErrors me .kNumberOfBanks (scriptIntResult py me .kNumberOfBanks)) ∧
    ((∃ v, (numberOfPatches py me w).1 = .ok v) ∧
      (numberOfPatches py me w).2.errorLog =
        w.errorLog ++ expectedErrors me .kNumberOfPatchesPerBank
          (scriptIntResult py me .kNumberOfPatchesPerBank)) ∧
    ((∃ v, (friendlyBankName py me bankNo w).1 = .ok v) ∧
      (friendlyBankName py me bankNo w).2.errorLog =
        w.errorLog ++
          (if me.pythonModuleHasFunction .kFriendlyBankName = true then
            expectedErrors me .kFriendlyBankName (scriptStringResult py me bankNo)
          else [])) := by
  refine ⟨?_, ?_, ?_⟩
  · rw [numberOfBanks_eq]
    cases scriptIntResult py me .kNumberOfBanks with
    | ok v => exact ⟨⟨v, rfl⟩, by simp [expectedErrors]⟩
    | error ex => cases ex <;> exact ⟨⟨1, rfl⟩, rfl⟩
  · rw [numberOfPatches_eq]
    cases scriptIntResult py me .kNumberOfPatchesPerBank with
    | ok v => exact ⟨⟨v, rfl⟩, by simp [expectedErrors]⟩
    | error ex => cases ex <;> exact ⟨⟨0, rfl⟩, rfl⟩
  · cases hdef : me.pythonModuleHasFunction .kFriendlyBankName with
    | false =>
      rw [friendlyBankName_eq_of_undefined py me bankNo w hdef]
      exact ⟨⟨_, rfl⟩, by simp⟩
    | true =>
      rw [friendlyBankName_eq_of_defined py me bankNo w hdef]
      cases scriptStringResult py me bankNo with
      | ok v => exact ⟨⟨v, rfl⟩, by simp [expectedErrors]⟩
      | error ex => cases ex <;> exact ⟨⟨"invalid name", rfl⟩, by simp [expectedErrors, CppException.what]⟩

end knobkraft

/-! ## Theorems: PatchView -/

namespace TheOrm

open midikraft

namespace PatchView

/-- Closed form of `selectPatch` on the current patch when it is layered with a non-zero
number of layers: only the layer index moves, and a layer-capable synth is told. -/
theorem selectPatch_current_layered (synth : Synth) (patch : PatchHolder) (s : PatchView)
    (n : Int) (hcur : s.currentPatch = some patch.addr)
    (hlay : patch.patch.numberOfLayers = some n) (hn : n ≠ 0) :
    selectPatch synth patch s =
      some (if synth.layerCapability then
          { s with
            currentLayer := Int.tmod (s.currentLayer + 1) n
            trace := s.trace ++
              [.postMessage (formatInt "Switching to layer " (Int.tmod (s.currentLayer + 1) n) ""),
                .switchToLayer synth.addr (Int.tmod (s.currentLayer + 1) n)] }
        else { s with currentLayer := Int.tmod (s.currentLayer + 1) n }) := by
  unfold selectPatch
  simp only [hcur, hlay, cppRem, hn, ne_eq, not_true_eq_false, if_false, Option.map_some']
  cases synth.layerCapability <;> simp [emit]

/-- The C++ remainder agrees with the mathematical modulus on a non-negative dividend and a
positive divisor. -/
theorem tmod_succ_eq_emod (l n : Int) (hl : 0 ≤ l) (hn : 1 ≤ n) :
    Int.tmod (l + 1) n = (l + 1) % n :=
  Int.tmod_eq_emod (by omega) (by omega)

/-- Selecting the current layered patch `k` times moves the layer index `k` steps around the
cycle and keeps the patch current. -/
theorem selectPatchTimes_current_layered (synth : Synth) (patch : PatchHolder) (n : Int)
    (hlay : patch.patch.numberOfLayers = some n) (hn : 1 ≤ n) :
    ∀ (k : Nat) (s : PatchView), s.currentPatch = some patch.addr →
      0 ≤ s.currentLayer → s.currentLayer < n →
      ∃ s1, selectPatchTimes synth patch k s = some s1 ∧
        s1.currentLayer = (s.currentLayer + (k : Int)) % n ∧
        s1.currentPatch = s.currentPatch ∧ s1.compareTarget = s.compareTarget := by
  intro k
  induction k with
  | zero =>
    intro s _ h0 hlt
    refine ⟨s, rfl, ?_, rfl, rfl⟩
    simp [Int.emod_eq_of_lt h0 hlt]
  | succ k ih =>
    intro s hcur h0 hlt
    have hstep := selectPatch_current_layered synth patch s n hcur hlay (by omega)
    rw [tmod_succ_eq_emod _ _ h0 hn] at hstep
    have hnn : 0 ≤ (s.currentLayer + 1) % n := Int.emod_nonneg _ (by omega)
    have hlt2 : (s.currentLayer + 1) % n < n := Int.emod_lt_of_pos _ (by omega)
    cases hcap : synth.layerCapability with
    | false =>
      rw [hcap] at hstep
      obtain ⟨s1, hs1, hl1, hp1, hc1⟩ :=
        ih { s with currentLayer := (s.currentLayer + 1) % n } hcur hnn hlt2
      refine ⟨s1, ?_, ?_, hp1, hc1⟩
      · simp only [selectPatchTimes, hstep, Option.some_bind]
        simpa using hs1
      · rw [hl1]
        show ((s.currentLayer + 1) % n + (k : Int)) % n = _
        rw [Int.emod_add_emod]
        congr 1
        push_cast
        omega
    | true =>
      rw [hcap] at hstep
      obtain ⟨s1, hs1, hl1, hp1, hc1⟩ :=
        ih { s with
            currentLayer := (s.currentLayer + 1) % n
            trace := s.trace ++
              [.postMessage (formatInt "Switching to layer " ((s.currentLayer + 1) % n) ""),
                .switchToLayer synth.addr ((s.currentLayer + 1) % n)] } hcur hnn hlt2
      refine ⟨s1, ?_, ?_, hp1, hc1⟩
      · simp only [selectPatchTimes, hstep, Option.some_bind]
        simpa using hs1
      · rw [hl1]
        show ((s.currentLayer + 1) % n + (k : Int)) % n = _
        rw [Int.emod_add_emod]
        congr 1
        push_cast
        omega

end PatchView

end TheOrm

namespace TheOrm

open midikraft

/-- Counting merge calls distributes over concatenation of traces. -/
theorem mergeCalls_append (a b : List Event) :
    mergeCalls (a ++ b) = mergeCalls a + mergeCalls b := by
  induction a with
  | nil => simp [mergeCalls]
  | cons e es ih =>
    cases e
    all_goals simp [mergeCalls, ih]
    omega

/-- Collecting success-handler invocations distributes over concatenation of traces. -/
theorem finishedCalls_append (a b : List Event) :
    finishedCalls (a ++ b) = finishedCalls a ++ finishedCalls b := by
  induction a with
  | nil => simp [finishedCalls]
  | cons e es ih => cases e <;> simp [finishedCalls, ih]

/-- Collecting page-callback invocations distributes over concatenation of traces. -/
theorem callbackCalls_append (a b : List Event) :
    callbackCalls (a ++ b) = callbackCalls a ++ callbackCalls b := by
  induction a with
  | nil => simp [callbackCalls]
  | cons e es ih => cases e <;> simp [callbackCalls, ih]

/-- C5.  When `selectPatch` is called with the patch that is already current and that patch
is layered with `n >= 1` layers, the call succeeds and the new layer index is the C++
remainder `(old + 1) % n`; for every non-negative old index this is the mathematical
`(old + 1) mod n`. -/
theorem selectPatch_same_patch_advances_layer (synth : Synth) (patch : PatchHolder)
    (s : PatchView) (n : Int) (hcur : s.currentPatch = some patch.addr)
    (hlay : patch.patch.numberOfLayers = some n) (hn : 1 ≤ n) :
    ∃ s1, PatchView.selectPatch synth patch s = some s1 ∧
      s1.currentLayer = Int.tmod (s.currentLayer + 1) n ∧
      (0 ≤ s.currentLayer → s1.currentLayer = (s.currentLayer + 1) % n) := by
  rw [PatchView.selectPatch_current_layered synth patch s n hcur hlay (by omega)]
  refine ⟨_, rfl, ?_, ?_⟩
  · cases synth.layerCapability <;> rfl
  · intro h0
    rw [← PatchView.tmod_succ_eq_emod _ _ h0 hn]
    cases synth.layerCapability <;> rfl

/-- Witness for C5: re-selecting the two-layer patch on layer 1 wraps around to layer 0. -/
theorem selectPatch_same_patch_advances_layer_witness :
    (viewOn 100 1).currentPatch = some twoLayerPatch.addr ∧
    twoLayerPatch.patch.numberOfLayers = some 2 ∧ (1 : Int) ≤ 2 ∧
    ∃ s1, PatchView.selectPatch layerSynth twoLayerPatch (viewOn 100 1) = some s1 ∧
      s1.currentLayer = Int.tmod ((viewOn 100 1).currentLayer + 1) 2 ∧
      (0 ≤ (viewOn 100 1).currentLayer →
        s1.currentLayer = ((viewOn 100 1).currentLayer + 1) % 2) :=
  ⟨rfl, rfl, by decide,
    selectPatch_same_patch_advances_layer layerSynth twoLayerPatch (viewOn 100 1) 2 rfl rfl
      (by decide)⟩

/-- C6.  For a layered patch with `n >= 1` layers that is the current patch and a starting
layer index in `[0, n)`, calling `selectPatch` on that patch `n` times in a row succeeds
and leaves the layer index at its starting value. -/
theorem selectPatch_n_times_restores_layer (synth : Synth) (patch : PatchHolder)
    (s : PatchView) (n : Int) (hcur : s.currentPatch = some patch.addr)
    (hlay : patch.patch.numberOfLayers = some n) (hn : 1 ≤ n)
    (h0 : 0 ≤ s.currentLayer) (hlt : s.currentLayer < n) :
    ∃ s1, PatchView.selectPatchTimes synth patch n.toNat s = some s1 ∧
      s1.currentLayer = s.currentLayer := by
  obtain ⟨s1, hs1, hl1, _, _⟩ :=
    PatchView.selectPatchTimes_current_layered synth patch n hlay hn n.toNat s hcur h0 hlt
  refine ⟨s1, hs1, ?_⟩
  rw [hl1, Int.toNat_of_nonneg (by omega), Int.add_emod_self]
  exact Int.emod_eq_of_lt h0 hlt

/-- Witness for C6: three selections of the three-layer patch starting on layer 1. -/
theorem selectPatch_n_times_restores_layer_witness :
    (viewOn 101 1).currentPatch = some threeLayerPatch.addr ∧
    threeLayerPatch.patch.numberOfLayers = some 3 ∧ (1 : Int) ≤ 3 ∧
    0 ≤ (viewOn 101 1).currentLayer ∧ (viewOn 101 1).currentLayer < 3 ∧
    ∃ s1, PatchView.selectPatchTimes layerSynth threeLayerPatch (3 : Int).toNat (viewOn 101 1)
        = some s1 ∧
      s1.currentLayer = (viewOn 101 1).currentLayer :=
  ⟨rfl, rfl, by decide, by decide, by decide,
    selectPatch_n_times_restores_layer layerSynth threeLayerPatch (viewOn 101 1) 3 rfl rfl
      (by decide) (by decide) (by decide)⟩

/-- C7.  The query issued by `loadPage` filters on the synth that is current when it is
issued.  When the database delivers `newPatches` in a later state `now`, the callback is
invoked, once and with exactly `newPatches`, if the synth current in `now` is the one that
was current at issue time; otherwise the result is dropped: the state is untouched and the
callback is not invoked. -/
theorem loadPage_delivers_iff_same_synth (skip limit : Int) (s now : PatchView)
    (newPatches : List PatchHolder) :
    (PatchView.loadPage skip limit s).1.filter.synth = s.currentSynth ∧
    (PatchView.loadPage skip limit s).1.finished newPatches now =
      (if now.currentSynth = s.currentSynth then now.emit [.callback newPatches] else now) ∧
    callbackCalls ((PatchView.loadPage skip limit s).1.finished newPatches now).trace =
      callbackCalls now.trace ++
        (if now.currentSynth = s.currentSynth then [newPatches] else []) := by
  have hfin : (PatchView.loadPage skip limit s).1.finished newPatches now =
      (if now.currentSynth = s.currentSynth then now.emit [.callback newPatches] else now) := by
    unfold PatchView.loadPage
    rfl
  refine ⟨?_, hfin, ?_⟩
  · unfold PatchView.loadPage
    rfl
  · rw [hfin]
    by_cases h : now.currentSynth = s.currentSynth
    · simp [h, PatchView.emit, callbackCalls_append, callbackCalls]
    · simp [h]

/-- C8.  On an empty batch `MergeManyPatchFiles::run` only posts the message that there is
nothing to upload: the store merge is not called and the success handler is not invoked.
`PatchView::loadPatches` does nothing at all when the load from disk yields no patch. -/
theorem merge_empty_batch (database : PatchDatabase) (s : PatchView)
    (loadSysexPatchesFromDisk : Nat → List PatchHolder)
    (hload : ∀ synth, s.currentSynth = some synth → loadSysexPatchesFromDisk synth = []) :
    MergeManyPatchFiles.run database [] s =
      s.emit [.postMessage "No patches contained in data, nothing to upload."] ∧
    mergeCalls (MergeManyPatchFiles.run database [] s).trace = mergeCalls s.trace ∧
    finishedCalls (MergeManyPatchFiles.run database [] s).trace = finishedCalls s.trace ∧
    PatchView.loadPatches loadSysexPatchesFromDisk database s = s := by
  have hrun : MergeManyPatchFiles.run database [] s =
      s.emit [.postMessage "No patches contained in data, nothing to upload."] := rfl
  refine ⟨hrun, ?_, ?_, ?_⟩
  · rw [hrun]
    simp [PatchView.emit, mergeCalls_append, mergeCalls]
  · rw [hrun]
    simp [PatchView.emit, finishedCalls_append, finishedCalls]
  · unfold PatchView.loadPatches
    cases hc : s.currentSynth with
    | none => rfl
    | some synth => simp [hload synth hc]

/-- Witness for C8: a view whose import from disk comes back empty, on a store that would
accept anything. -/
theorem merge_empty_batch_witness :
    (∀ synth, (viewOn 102 0).currentSynth = some synth →
      (fun _ => ([] : List PatchHolder)) synth = []) ∧
    MergeManyPatchFiles.run acceptingDatabase [] (viewOn 102 0) =
      (viewOn 102 0).emit [.postMessage "No patches contained in data, nothing to upload."] ∧
    mergeCalls (MergeManyPatchFiles.run acceptingDatabase [] (viewOn 102 0)).trace =
      mergeCalls (viewOn 102 0).trace ∧
    finishedCalls (MergeManyPatchFiles.run acceptingDatabase [] (viewOn 102 0)).trace =
      finishedCalls (viewOn 102 0).trace ∧
    PatchView.loadPatches (fun _ => []) acceptingDatabase (viewOn 102 0) = viewOn 102 0 :=
  ⟨fun _ _ => rfl,
    merge_empty_batch acceptingDatabase (viewOn 102 0) (fun _ => []) (fun _ _ => rfl)⟩

/-- C9.  On a non-empty batch `MergeManyPatchFiles::run` calls the store merge exactly once,
for the current synth and the whole batch, and invokes the success handler if and only if
the merge reports a count greater than zero, in which case the handler is invoked once with
exactly the list the merge produced.  With the handler given as a state transformer, the
task is the run followed, exactly when the count is greater than zero, by the handler on that
list. -/
theorem merge_nonempty_batch (database : PatchDatabase) (patchesLoaded : List PatchHolder)
    (s : PatchView) (hne : patchesLoaded ≠ []) :
    (MergeManyPatchFiles.run database patchesLoaded s).trace =
      s.trace ++ .mergePatchesIntoDatabase s.currentSynth patchesLoaded ::
        (if 0 < (database.mergePatchesIntoDatabase s.currentSynth patchesLoaded).1 then
          [.postMessage (formatInt "Retrieved "
              (database.mergePatchesIntoDatabase s.currentSynth patchesLoaded).1
              " new or changed patches from the synth, uploaded to database"),
            .finished (database.mergePatchesIntoDatabase s.currentSynth patchesLoaded).2]
        else [.postMessage "All patches already known to database"]) ∧
    mergeCalls (MergeManyPatchFiles.run database patchesLoaded s).trace =
      mergeCalls s.trace + 1 ∧
    finishedCalls (MergeManyPatchFiles.run database patchesLoaded s).trace =
      finishedCalls s.trace ++
        (if 0 < (database.mergePatchesIntoDatabase s.currentSynth patchesLoaded).1 then
          [(database.mergePatchesIntoDatabase s.currentSynth patchesLoaded).2]
        else []) ∧
    (∀ finished_ : List PatchHolder → PatchView → Option PatchView,
      MergeManyPatchFiles.runWith finished_ database patchesLoaded s =
        if 0 < (database.mergePatchesIntoDatabase s.currentSynth patchesLoaded).1 then
          finished_ (database.mergePatchesIntoDatabase s.currentSynth patchesLoaded).2
            (MergeManyPatchFiles.run database patchesLoaded s)
        else some (MergeManyPatchFiles.run database patchesLoaded s)) := by
  have hlen : patchesLoaded.length ≠ 0 := by
    intro h
    exact hne (List.length_eq_zero.mp h)
  have htrace : (MergeManyPatchFiles.run database patchesLoaded s).trace =
      s.trace ++ .mergePatchesIntoDatabase s.currentSynth patchesLoaded ::
        (if 0 < (database.mergePatchesIntoDatabase s.currentSynth patchesLoaded).1 then
          [.postMessage (formatInt "Retrieved "
              (database.mergePatchesIntoDatabase s.currentSynth patchesLoaded).1
              " new or changed patches from the synth, uploaded to database"),
            .finished (database.mergePatchesIntoDatabase s.currentSynth patchesLoaded).2]
        else [.postMessage "All patches already known to database"]) := by
    unfold MergeManyPatchFiles.run
    simp only [hlen, if_false]
    by_cases hpos : 0 < (database.mergePatchesIntoDatabase s.currentSynth patchesLoaded).1
    · simp [hpos, PatchView.emit]
    · simp [hpos, PatchView.emit]
  refine ⟨htrace, ?_, ?_, ?_⟩
  · rw [htrace]
    by_cases hpos : 0 < (database.mergePatchesIntoDatabase s.currentSynth patchesLoaded).1
    · simp [hpos, mergeCalls_append, mergeCalls]
    · simp [hpos, mergeCalls_append, mergeCalls]
  · rw [htrace]
    by_cases hpos : 0 < (database.mergePatchesIntoDatabase s.currentSynth patchesLoaded).1
    · simp [hpos, finishedCalls_append, finishedCalls]
    · simp [hpos, finishedCalls_append, finishedCalls]
  · intro finished_
    unfold MergeManyPatchFiles.runWith MergeManyPatchFiles.run
    simp only [hlen, if_false]
    by_cases hpos : 0 < (database.mergePatchesIntoDatabase s.currentSynth patchesLoaded).1
    · simp [hpos]
    · simp [hpos]

/-- Witness for C9: a batch of two patches, once on a store that takes both as new (the
handler receives both) and once on a store that knows them already (no handler call). -/
theorem merge_nonempty_batch_witness :
    [singlePatch, twoLayerPatch] ≠ [] ∧
    finishedCalls (MergeManyPatchFiles.run acceptingDatabase [singlePatch, twoLayerPatch]
      (viewOn 102 0)).trace = [[singlePatch, twoLayerPatch]] ∧
    mergeCalls (MergeManyPatchFiles.run acceptingDatabase [singlePatch, twoLayerPatch]
      (viewOn 102 0)).trace = 1 ∧
    finishedCalls (MergeManyPatchFiles.run saturatedDatabase [singlePatch, twoLayerPatch]
      (viewOn 102 0)).trace = [] ∧
    mergeCalls (MergeManyPatchFiles.run saturatedDatabase [singlePatch, twoLayerPatch]
      (viewOn 102 0)).trace = 1 :=
  ⟨List.cons_ne_nil _ _,
    (merge_nonempty_batch acceptingDatabase [singlePatch, twoLayerPatch] (viewOn 102 0)
      (List.cons_ne_nil _ _)).2.2.1,
    (merge_nonempty_batch acceptingDatabase [singlePatch, twoLayerPatch] (viewOn 102 0)
      (List.cons_ne_nil _ _)).2.1,
    (merge_nonempty_batch saturatedDatabase [singlePatch, twoLayerPatch] (viewOn 102 0)
      (List.cons_ne_nil _ _)).2.2.1,
    (merge_nonempty_batch saturatedDatabase [singlePatch, twoLayerPatch] (viewOn 102 0)
      (List.cons_ne_nil _ _)).2.1⟩

end TheOrm

/-! ## Theorems: display and wire numbering of banks -/

namespace knobkraft

/-- C11.  When the adaptation defines the friendly-bank-name function and the call succeeds,
`friendlyBankName` makes exactly one script call, with the zero-based bank number as its
only argument, and returns the string of the script unchanged; the default label of an
adaptation without the function shows the one-based number.  For zero-based number `z` the
script sees `z` and the default label reads "Bank " followed by `z + 1`. -/
theorem friendlyBankName_script_zero_based_label_one_based {Obj : Type} (py : Pybind Obj)
    (me plain : GenericAdaptation Obj) (z : Int) (w : PyWorld) (name : String)
    (hdef : me.pythonModuleHasFunction .kFriendlyBankName = true)
    (hok : scriptStringResult py me ⟨z⟩ = .ok name)
    (hplain : plain.pythonModuleHasFunction .kFriendlyBankName = false) :
    (friendlyBankName py me ⟨z⟩ w).1 = .ok name ∧
    (friendlyBankName py me ⟨z⟩ w).2.calls = w.calls ++ [⟨.kFriendlyBankName, [z]⟩] ∧
    (friendlyBankName py me ⟨z⟩ w).2.errorLog = w.errorLog ∧
    (friendlyBankName py plain ⟨z⟩ w).1 = .ok ("Bank " ++ toString (z + 1)) ∧
    (friendlyBankName py plain ⟨z⟩ w).2.calls = w.calls := by
  rw [friendlyBankName_eq_of_defined py me ⟨z⟩ w hdef, hok,
    friendlyBankName_eq_of_undefined py plain ⟨z⟩ w hplain]
  exact ⟨rfl, rfl, rfl, rfl, rfl⟩

/-- Witness for C11: for zero-based bank 3 the script of `namedAdaptation` is called with 3
and answers "User 3", while the default label of `plainAdaptation` is "Bank 4". -/
theorem friendlyBankName_script_zero_based_label_one_based_witness :
    namedAdaptation.pythonModuleHasFunction .kFriendlyBankName = true ∧
    scriptStringResult pyObjectCasts namedAdaptation ⟨3⟩ = .ok "User 3" ∧
    plainAdaptation.pythonModuleHasFunction .kFriendlyBankName = false ∧
    (friendlyBankName pyObjectCasts namedAdaptation ⟨3⟩ emptyWorld).1 = .ok "User 3" ∧
    (friendlyBankName pyObjectCasts namedAdaptation ⟨3⟩ emptyWorld).2.calls =
      [] ++ [⟨.kFriendlyBankName, [3]⟩] ∧
    (friendlyBankName pyObjectCasts namedAdaptation ⟨3⟩ emptyWorld).2.errorLog = [] ∧
    (friendlyBankName pyObjectCasts plainAdaptation ⟨3⟩ emptyWorld).1 = .ok "Bank 4" ∧
    (friendlyBankName pyObjectCasts plainAdaptation ⟨3⟩ emptyWorld).2.calls = [] :=
  ⟨rfl, rfl, rfl,
    friendlyBankName_script_zero_based_label_one_based pyObjectCasts namedAdaptation
      plainAdaptation 3 emptyWorld "User 3" rfl rfl rfl⟩

end knobkraft

/-! ## Theorems: outcomes of selectPatch and the layer index -/

namespace TheOrm

open midikraft

/-- Collecting the sent patches distributes over concatenation of traces. -/
theorem sentPatches_append (a b : List Event) :
    sentPatches (a ++ b) = sentPatches a ++ sentPatches b := by
  induction a with
  | nil => simp [sentPatches]
  | cons e es ih => cases e <;> simp [sentPatches, ih]

namespace PatchView

/-- Closed form of `selectPatch` on a patch other than the current one: the patch switch. -/
theorem selectPatch_other (synth : Synth) (patch : PatchHolder) (s : PatchView)
    (hother : s.currentPatch ≠ some patch.addr) :
    selectPatch synth patch s =
      some (if synth.layerCapability then
          { s with
            compareTarget := s.currentPatch
            currentPatch := some patch.addr
            currentLayer := 0
            trace := s.trace ++ [.postMessage ("Selected patch " ++ patch.patch.patchName),
              .sendPatchToSynth synth.addr patch.patch,
              .postMessage (formatInt "Switching to layer " 0 ""),
              .switchToLayer synth.addr 0] }
        else
          { s with
            compareTarget := s.currentPatch
            currentPatch := some patch.addr
            currentLayer := 0
            trace := s.trace ++ [.postMessage ("Selected patch " ++ patch.patch.patchName),
              .sendPatchToSynth synth.addr patch.patch] }) := by
  have h : some patch.addr ≠ s.currentPatch := fun e => hother e.symm
  unfold selectPatch
  simp only [h, ne_eq, not_false_eq_true, if_true, Option.map_some']
  cases synth.layerCapability <;> simp [emit]

/-- Closed form of `selectPatch` on the current patch when it has no layers: the state stays
as it is, and a layer-capable synth is told the layer again. -/
theorem selectPatch_current_single (synth : Synth) (patch : PatchHolder) (s : PatchView)
    (hcur : s.currentPatch = some patch.addr) (hlay : patch.patch.numberOfLayers = none) :
    selectPatch synth patch s =
      some (if synth.layerCapability then
          s.emit [.postMessage (formatInt "Switching to layer " s.currentLayer ""),
            .switchToLayer synth.addr s.currentLayer]
        else s) := by
  unfold selectPatch
  simp only [hcur, hlay, ne_eq, not_true_eq_false, if_false, Option.map_some']

/-- On the current patch, layered with zero layers, the layer advance divides by zero. -/
theorem selectPatch_current_zero_layers (synth : Synth) (patch : PatchHolder) (s : PatchView)
    (hcur : s.currentPatch = some patch.addr) (hlay : patch.patch.numberOfLayers = some 0) :
    selectPatch synth patch s = none := by
  unfold selectPatch
  simp [hcur, hlay, cppRem]

end PatchView

/-- C12, as stated, fails.  The holder `zeroLayerPatch` is the current patch of the view and
its patch is layered with zero layers; re-selecting it divides by zero in the layer advance,
so the call has no resulting state at all: it is neither a patch switch nor a layer
advance. -/
theorem selectPatch_zero_layers_no_outcome :
    (viewOn 103 0).currentPatch = some zeroLayerPatch.addr ∧
    zeroLayerPatch.patch.numberOfLayers = some 0 ∧
    cppRem ((viewOn 103 0).currentLayer + 1) 0 = none ∧
    PatchView.selectPatch layerSynth zeroLayerPatch (viewOn 103 0) = none ∧
    ¬ ∃ s1, PatchView.selectPatch layerSynth zeroLayerPatch (viewOn 103 0) = some s1 := by
  have hnone : PatchView.selectPatch layerSynth zeroLayerPatch (viewOn 103 0) = none :=
    PatchView.selectPatch_current_zero_layers layerSynth zeroLayerPatch (viewOn 103 0) rfl rfl
  refine ⟨rfl, rfl, rfl, hnone, ?_⟩
  rintro ⟨s1, hs1⟩
  rw [hnone] at hs1
  cases hs1

/-- C12, amended.  `selectPatch` has exactly two outcomes.  Selecting a patch other than the
current one, whatever its layers, makes it the current patch, records the previously
current patch as the comparison target and sends that patch to the synth exactly once.
Re-selecting the current patch, provided it is not a layered patch with zero layers, sends
no patch and leaves the current patch, the comparison target and every other member as they
were; only the layer index (and the trace of log lines and layer switches) may change. -/
theorem selectPatch_two_outcomes (synth : Synth) (patch : PatchHolder) (s : PatchView) :
    (s.currentPatch ≠ some patch.addr →
      ∃ s1, PatchView.selectPatch synth patch s = some s1 ∧
        s1.currentPatch = some patch.addr ∧
        s1.compareTarget = s.currentPatch ∧
        sentPatches s1.trace = sentPatches s.trace ++ [(synth.addr, patch.patch)]) ∧
    (s.currentPatch = some patch.addr → patch.patch.numberOfLayers ≠ some 0 →
      ∃ s1, PatchView.selectPatch synth patch s = some s1 ∧
        s1.currentPatch = s.currentPatch ∧
        s1.compareTarget = s.compareTarget ∧
        sentPatches s1.trace = sentPatches s.trace ∧
        { s1 with currentLayer := s.currentLayer, trace := s.trace } = s) := by
  constructor
  · intro hother
    rw [PatchView.selectPatch_other synth patch s hother]
    refine ⟨_, rfl, ?_, ?_, ?_⟩
    · cases synth.layerCapability <;> rfl
    · cases synth.layerCapability <;> rfl
    · cases synth.layerCapability <;> simp [sentPatches_append, sentPatches]
  · intro hcur hlayers
    cases hl : patch.patch.numberOfLayers with
    | none =>
      rw [PatchView.selectPatch_current_single synth patch s hcur hl]
      refine ⟨_, rfl, ?_, ?_, ?_, ?_⟩
      · cases synth.layerCapability <;> rfl
      · cases synth.layerCapability <;> rfl
      · cases synth.layerCapability <;>
          simp [PatchView.emit, sentPatches_append, sentPatches]
      · cases synth.layerCapability <;> rfl
    | some n =>
      have hn : n ≠ 0 := by
        intro h0
        rw [hl, h0] at hlayers
        exact hlayers rfl
      rw [PatchView.selectPatch_current_layered synth patch s n hcur hl hn]
      refine ⟨_, rfl, ?_, ?_, ?_, ?_⟩
      · cases synth.layerCapability <;> rfl
      · cases synth.layerCapability <;> rfl
      · cases synth.layerCapability <;> simp [sentPatches_append, sentPatches]
      · cases synth.layerCapability <;> rfl

/-- Witness for C12 amended: from the view that shows the two-layer patch on layer 1,
selecting the zero-layer patch is a patch switch like any other, and selecting the two-layer
patch again is a layer advance. -/
theorem selectPatch_two_outcomes_witness :
    (viewOn 100 1).currentPatch ≠ some zeroLayerPatch.addr ∧
    (viewOn 100 1).currentPatch = some twoLayerPatch.addr ∧
    twoLayerPatch.patch.numberOfLayers ≠ some 0 ∧
    (∃ s1, PatchView.selectPatch layerSynth zeroLayerPatch (viewOn 100 1) = some s1 ∧
      s1.currentPatch = some zeroLayerPatch.addr ∧
      s1.compareTarget = (viewOn 100 1).currentPatch ∧
      sentPatches s1.trace =
        sentPatches (viewOn 100 1).trace ++ [(layerSynth.addr, zeroLayerPatch.patch)]) ∧
    (∃ s1, PatchView.selectPatch layerSynth twoLayerPatch (viewOn 100 1) = some s1 ∧
      s1.currentPatch = (viewOn 100 1).currentPatch ∧
      s1.compareTarget = (viewOn 100 1).compareTarget ∧
      sentPatches s1.trace = sentPatches (viewOn 100 1).trace ∧
      { s1 with currentLayer := (viewOn 100 1).currentLayer, trace := (viewOn 100 1).trace }
        = viewOn 100 1) :=
  ⟨by decide, rfl, by decide,
    (selectPatch_two_outcomes layerSynth zeroLayerPatch (viewOn 100 1)).1 (by decide),
    (selectPatch_two_outcomes layerSynth twoLayerPatch (viewOn 100 1)).2 rfl (by decide)⟩

end TheOrm

/-! ## Theorems: SetupView -/

namespace TheOrm

open midikraft

/-- Inserting a name keeps all names. -/
theorem insertName_perm (x : String) (l : List String) : (insertName x l).Perm (x :: l) := by
  induction l with
  | nil => exact List.Perm.refl _
  | cons y ys ih =>
    unfold insertName
    split
    · exact ((List.Perm.cons y ih).trans (List.Perm.swap x y ys))
    · exact List.Perm.refl _

/-- Sorting the names keeps all names. -/
theorem sortNames_perm (l : List String) : (sortNames l).Perm l := by
  induction l with
  | nil => exact List.Perm.refl _
  | cons x xs ih => exact (insertName_perm x (sortNames xs)).trans (List.Perm.cons x ih)

/-- The comparison of names is asymmetric. -/
theorem charsLess_asymm : ∀ (a b : List Char), charsLess a b = true → charsLess b a = false
  | _, [] => by intro h; simp [charsLess] at h
  | [], _ :: _ => by intro _; simp [charsLess]
  | a :: as, b :: bs => by
    intro h
    unfold charsLess at h ⊢
    by_cases h1 : a.toNat < b.toNat
    · have h2 : ¬ b.toNat < a.toNat := by omega
      simp [h1, h2]
    · by_cases h2 : b.toNat < a.toNat
      · simp [h1, h2] at h
      · simp only [h1, h2, if_false] at h ⊢
        exact charsLess_asymm as bs h

/-- Inserting a name into an ascending list gives an ascending list. -/
theorem insertName_ascending (x : String) (l : List String)
    (hl : l.Chain' fun a b => charsLess b.toList a.toList = false) :
    (insertName x l).Chain' fun a b => charsLess b.toList a.toList = false := by
  induction l with
  | nil => simp [insertName]
  | cons y ys ih =>
    unfold insertName
    split
    · rename_i hyx
      have ih1 := ih (List.Chain'.tail hl)
      refine List.Chain'.cons' ih1 ?_
      intro z hz
      cases ys with
      | nil =>
        simp only [insertName, List.head?_cons, Option.mem_def, Option.some.injEq] at hz
        subst hz
        exact charsLess_asymm _ _ hyx
      | cons w ws =>
        have hyw : charsLess w.toList y.toList = false := (List.chain'_cons.mp hl).1
        unfold insertName at hz
        split at hz
        · simp only [List.head?_cons, Option.mem_def, Option.some.injEq] at hz
          subst hz
          exact hyw
        · simp only [List.head?_cons, Option.mem_def, Option.some.injEq] at hz
          subst hz
          exact charsLess_asymm _ _ hyx
    · rename_i hyx
      refine List.Chain'.cons' hl ?_
      intro z hz
      simp only [List.head?_cons, Option.mem_def, Option.some.injEq] at hz
      subst hz
      simpa using hyx

/-- The names come out of `sortNames` in ascending order: no name is smaller than the one
before it. -/
theorem sortNames_ascending (l : List String) :
    (sortNames l).Chain' fun a b => charsLess b.toList a.toList = false := by
  induction l with
  | nil => simp [sortNames]
  | cons x xs ih => exact insertName_ascending x (sortNames xs) ih

/-- The rebuild loop creates exactly three properties for every active synth of the list it
walks, in the order of that list: output, input and MIDI channel, all under the name of
the synth. -/
theorem setupColumn_sections (list : SynthList) (synths : List SynthHolder) :
    sectionValues (SetupView.setupColumn list synths) =
      (synths.filter fun synth => list.isSynthActive synth.device).flatMap fun synth =>
        [(synth.getName, "Sent to device", none), (synth.getName, "Receive from device", none),
          (synth.getName, "MIDI channel", none)] := by
  induction synths with
  | nil => rfl
  | cons synth rest ih =>
    unfold SetupView.setupColumn
    cases hact : list.isSynthActive synth.device with
    | false => simpa [hact, List.filter_cons] using ih
    | true =>
      simp only [hact, Bool.not_true, Bool.false_eq_true, if_false, List.filter_cons, if_true,
        List.flatMap_cons]
      simpa [sectionValues] using ih

/-- C14 fails on two active synths registered as Korg DW8000 before Access Virus.  After the
constructor has rebuilt the setup column, the properties are grouped by name (Access Virus
first), three per synth, but `refreshData` has filled them in registration order: the
Access Virus section shows port 2 and channel 1, the values of the Korg DW8000, and the
Korg DW8000 section shows port 1 and channel 5, the values of the Access Virus. -/
theorem refreshData_fills_sections_in_registration_order :
    exampleSynthList.allSynths.map (fun synth => synth.getName) =
      ["Korg DW8000", "Access Virus"] ∧
    (SetupView.construct exampleCollaborators exampleSynthList).map
        (fun r => sectionValues r.1.properties) =
      some [("Access Virus", "Sent to device", some 2),
        ("Access Virus", "Receive from device", some 2),
        ("Access Virus", "MIDI channel", some 1),
        ("Korg DW8000", "Sent to device", some 1),
        ("Korg DW8000", "Receive from device", some 1),
        ("Korg DW8000", "MIDI channel", some 5)] ∧
    SetupView.channelValue (exampleSynthList.deviceAt 2).channel = 5 ∧
    SetupView.channelValue (exampleSynthList.deviceAt 1).channel = 1 ∧
    exampleCollaborators.indexOfValue ⟨"Sent to device", "Access Virus",
      .midiDevicePropertyEditor false, none⟩ (exampleSynthList.deviceAt 2).midiOutput = 1 := by
  refine ⟨rfl, ?_, rfl, rfl, rfl⟩
  decide

end TheOrm
